import Mathlib

/-!
Shallow embedding of the measurement-data pipeline in `src/main.py`
(functions `process_measurements`, `split_and_sort_timestamp`, and the
dataset/grouping pipeline in the `Process Data` handler), together with
theorems settling the specification claims.

Modelling conventions:
* Python `str` values are modelled as `List Char`; `str.split(sep)` for a
  one-character separator is `splitOnChar`, `str.strip()` is `pyStrip`,
  and the `in` substring test is `containsSub`.
* Python numbers are modelled exactly: `int` as `Int` and `float` as `ℚ`
  (the claims under study involve only small decimal literals, where IEEE
  doubles and rationals agree; non-finite floats such as `inf`/`nan` are
  outside the modelled input space).
* `int(s)` / `float(s)` raise `ValueError` on bad input; they are modelled
  as `Option`-returning parsers `pyInt` / `pyFloat`, and the `try/except`
  block of `process_measurements` as the `Option` match in `parseFields`.
  The Lean functions are total, which reflects the "no exception escapes
  the per-line loop" behaviour of the source.
-/

/- `Rat.add`, `Rat.mul`, `Rat.inv`, `Rat.sub` are `@[irreducible]` in
Batteries, which blocks kernel evaluation of concrete rational arithmetic
in `decide`-based witnesses.  Restore the default reducibility; this does
not change any definitional equality. -/
set_option allowUnsafeReducibility true in
attribute [semireducible] Rat.add Rat.mul Rat.inv Rat.sub

/-- Python `str.split(sep)` for a single-character separator `sep`:
splits at every occurrence, keeping empty segments; the result is never
empty (splitting the empty string gives `[[]]`). -/
def splitOnChar (sep : Char) : List Char → List (List Char)
  | [] => [[]]
  | c :: rest =>
    let r := splitOnChar sep rest
    if c = sep then [] :: r
    else
      match r with
      | [] => [[c]]
      | h :: t => (c :: h) :: t

/-- ASCII whitespace, as stripped by Python `str.strip()`. -/
def pyIsSpace (c : Char) : Bool :=
  c = ' ' || c = '\t' || c = '\n' || c = '\r' || c = '\x0b' || c = '\x0c'

/-- Python `str.strip()`: remove leading and trailing whitespace. -/
def pyStrip (cs : List Char) : List Char :=
  ((cs.dropWhile pyIsSpace).reverse.dropWhile pyIsSpace).reverse

/-- `leadsWith pat cs`: `cs` starts with `pat`. -/
def leadsWith : List Char → List Char → Bool
  | [], _ => true
  | _ :: _, [] => false
  | p :: ps, c :: cs => p = c && leadsWith ps cs

/-- Python `pat in hay` substring containment. -/
def containsSub (hay pat : List Char) : Bool :=
  hay.tails.any (fun t => leadsWith pat t)

/-- Numeric value of a digit string (most significant digit first). -/
def digitsToNat (cs : List Char) : Nat :=
  cs.foldl (fun n c => 10 * n + (c.toNat - 48)) 0

/-- A non-empty string of ASCII digits. -/
def allDigits (cs : List Char) : Bool :=
  !cs.isEmpty && cs.all (·.isDigit)

/-- Sign-and-digits integer literal (no surrounding whitespace). -/
def pyIntCore (cs : List Char) : Option Int :=
  match cs with
  | '-' :: rest => if allDigits rest then some (-(digitsToNat rest : Int)) else none
  | '+' :: rest => if allDigits rest then some (digitsToNat rest : Int) else none
  | _ => if allDigits cs then some (digitsToNat cs : Int) else none

/-- Model of Python `int(str)`: strip whitespace, then an optional sign
followed by a non-empty digit string; anything else raises `ValueError`
(modelled as `none`).  (Underscore digit grouping and non-ASCII digits
are outside the modelled input space.) -/
def pyInt (cs : List Char) : Option Int :=
  pyIntCore (pyStrip cs)

/-- Mantissa of a decimal literal: `digits`, `digits.digits`, `.digits`
or `digits.`; returns the digits' value and the number of fractional
digits. -/
def mantissaVal (cs : List Char) : Option (Nat × Nat) :=
  let ip := cs.takeWhile (·.isDigit)
  let rest := cs.drop ip.length
  match rest with
  | [] => if ip.isEmpty then none else some (digitsToNat ip, 0)
  | '.' :: fp =>
    if fp.all (·.isDigit) && (!ip.isEmpty || !fp.isEmpty) then
      some (digitsToNat (ip ++ fp), fp.length)
    else none
  | _ => none

/-- Decimal literal without surrounding whitespace: optional sign,
mantissa, optional `e`/`E` exponent. -/
def pyFloatCore (cs : List Char) : Option ℚ :=
  let negBody : Bool × List Char :=
    match cs with
    | '-' :: rest => (true, rest)
    | '+' :: rest => (false, rest)
    | _ => (false, cs)
  let mant := negBody.2.takeWhile (fun c => c != 'e' && c != 'E')
  let rest := negBody.2.drop mant.length
  match mantissaVal mant, rest with
  | some mk0, [] => some (pyFloatVal negBody.1 mk0.1 mk0.2 0)
  | some mk0, _ :: ex =>
    match pyIntCore ex with
    | some e => some (pyFloatVal negBody.1 mk0.1 mk0.2 e)
    | none => none
  | none, _ => none
where
  /-- The rational value `±(m / 10^k) · 10^e`. -/
  pyFloatVal (neg : Bool) (m k : Nat) (e : Int) : ℚ :=
    let sm : Int := if neg then -(m : Int) else (m : Int)
    if 0 ≤ e then mkRat (sm * (10 : Int) ^ e.toNat) ((10 : Nat) ^ k)
    else mkRat sm ((10 : Nat) ^ (k + (-e).toNat))

/-- Model of Python `float(str)` on finite decimal literals: strip
whitespace, optional sign, decimal mantissa, optional exponent.
(`inf`/`nan`/hex forms are outside the modelled input space.) -/
def pyFloat (cs : List Char) : Option ℚ :=
  pyFloatCore (pyStrip cs)

/-- `float(p) if p else 0` inside the parser's `try` block: an empty
field yields `0.0` without attempting a parse (src/main.py lines 91-96). -/
def numField (cs : List Char) : Option ℚ :=
  if cs.isEmpty then some 0 else pyFloat cs

/-- The error-marker substring discarded by the parser (src/main.py line 80). -/
def errMarker : List Char :=
  "Exception while processing environment.".toList

/-- The schema-header substring discarded by the parser (src/main.py line 80). -/
def headerMarker : List Char :=
  "ProcessingTime;TimeStamp;Iteration;R20_Height_Left;R21_Height_Right;R30_Distance_Distance;R31_DistanceNEW;R_Current_CartNum;RadiusX;ExtractedResults".toList

/-- Line-discarding test of src/main.py line 80: the line contains the
error marker or the header string. -/
def discardLine (line : List Char) : Bool :=
  containsSub line errMarker || containsSub line headerMarker

/-- One parsed row (src/main.py line 99 / the `data` list entries). -/
structure MeasurementRecord where
  timestamp : List Char
  carrier : Int
  R20_Height_Left : ℚ
  R21_Height_Right : ℚ
  R30_Distance : ℚ
  R31_Distance : ℚ
  R32_Diameter_LEFT : ℚ
  R33_Diameter_RIGHT : ℚ
deriving DecidableEq, Repr

/-- `parts = line.strip().split(';')` (src/main.py line 83). -/
def fieldsOf (line : List Char) : List (List Char) :=
  splitOnChar ';' (pyStrip line)

/-- `parts[3].split('.')[0]`, the carrier field's text before any `.`
(src/main.py line 90). -/
def carrierFieldOf (line : List Char) : List Char :=
  (splitOnChar '.' ((fieldsOf line).getD 3 [])).getD 0 []

/-- The `try` block of src/main.py lines 89-99: parse the carrier and the
six numeric channels, and take field 1 verbatim as the timestamp; any
`ValueError` (modelled by `none`) drops the row. -/
def parseFields (line : List Char) : Option MeasurementRecord := do
  let c ← pyInt (carrierFieldOf line)
  let v4 ← numField ((fieldsOf line).getD 4 [])
  let v5 ← numField ((fieldsOf line).getD 5 [])
  let v6 ← numField ((fieldsOf line).getD 6 [])
  let v7 ← numField ((fieldsOf line).getD 7 [])
  let v8 ← numField ((fieldsOf line).getD 8 [])
  let v9 ← numField ((fieldsOf line).getD 9 [])
  pure ⟨(fieldsOf line).getD 1 [], c, v4, v5, v6, v7, v8, v9⟩

/-- The per-line body of the parser loop (src/main.py lines 79-102):
skip marker lines, require at least 10 `;`-separated fields, then parse. -/
def processLine (line : List Char) : Option MeasurementRecord :=
  if discardLine line then none
  else if (fieldsOf line).length < 10 then none
  else parseFields line

/-- `process_measurements` (src/main.py lines 75-106): split the decoded
file content into lines and keep the successfully parsed rows in order.
(Python `splitlines` is modelled as splitting on `'\n'`; a trailing
newline yields an extra empty line, which the 10-field check drops, as
in the source.) -/
def process_measurements (content : List Char) : List MeasurementRecord :=
  (splitOnChar '\n' content).filterMap processLine

/-- The numeric channel of a record that came from source field index
`k ∈ {4,...,9}` (src/main.py lines 91-96). -/
def chanOf (r : MeasurementRecord) : Nat → ℚ
  | 4 => r.R20_Height_Left
  | 5 => r.R21_Height_Right
  | 6 => r.R30_Distance
  | 7 => r.R31_Distance
  | 8 => r.R32_Diameter_LEFT
  | 9 => r.R33_Diameter_RIGHT
  | _ => 0

/-- A row after `split_and_sort_timestamp`: the `Timestamp` column is
replaced by `Date` and `Time` (src/main.py lines 62-73).  `Time` is
`none` when the timestamp contains no `'T'`, modelling the pandas `NaN`
produced by `.str[1]` on a too-short split. -/
structure SRec where
  Date : List Char
  Time : Option (List Char)
  Carrier : Int
  R20_Height_Left : ℚ
  R21_Height_Right : ℚ
  R30_Distance : ℚ
  R31_Distance : ℚ
  R32_Diameter_LEFT : ℚ
  R33_Diameter_RIGHT : ℚ
deriving DecidableEq, Repr

/-- Column computation of src/main.py lines 64-68:
`Date = ts.split('T')[0]`, `Time = ts.split('T')[1].split('.')[0]`
(the pandas `.str.split` splits at every occurrence of the pattern),
and the original `Timestamp` column is dropped. -/
def toSRec (r : MeasurementRecord) : SRec where
  Date := (splitOnChar 'T' r.timestamp).getD 0 []
  Time := ((splitOnChar 'T' r.timestamp)[1]?).map (fun t => (splitOnChar '.' t).getD 0 [])
  Carrier := r.carrier
  R20_Height_Left := r.R20_Height_Left
  R21_Height_Right := r.R21_Height_Right
  R30_Distance := r.R30_Distance
  R31_Distance := r.R31_Distance
  R32_Diameter_LEFT := r.R32_Diameter_LEFT
  R33_Diameter_RIGHT := r.R33_Diameter_RIGHT

/-- Lexicographic order on strings by Unicode code point, as used by
Python/pandas string comparison. -/
def lexLe : List Char → List Char → Bool
  | [], _ => true
  | _ :: _, [] => false
  | a :: as, b :: bs => if a = b then lexLe as bs else decide (a < b)

/-- Order on the `Time` column; `none` (pandas `NaN`) sorts last, as in
`sort_values` with the default `na_position='last'`. -/
def timeLE : Option (List Char) → Option (List Char) → Bool
  | some s, some t => lexLe s t
  | some _, none => true
  | none, some _ => false
  | none, none => true

/-- The `(Date, Time)` sort key order of `sort_values(by=['Date','Time'])`. -/
def keyLE (a b : SRec) : Bool :=
  if a.Date = b.Date then timeLE a.Time b.Time else lexLe a.Date b.Date

/-- `keyLE` as a decidable relation, for `List.insertionSort`. -/
def keyRel (a b : SRec) : Prop :=
  keyLE a b = true

instance : DecidableRel keyRel :=
  fun a b => instDecidableEqBool (keyLE a b) true

/-- `split_and_sort_timestamp` (src/main.py lines 62-73): compute `Date`
and `Time`, drop `Timestamp`, and sort by `(Date, Time)` ascending.
pandas `sort_values` on more than one column always uses the stable
`numpy.lexsort`; any stable sort by a total preorder computes the same
list, so it is modelled by the stable `List.insertionSort`. -/
def split_and_sort_timestamp (rs : List MeasurementRecord) : List SRec :=
  (rs.map toSRec).insertionSort keyRel

/-- `dataset.fillna(0)` (src/main.py line 125): the numeric columns are
total in this embedding, so only the `Time` column can hold a missing
value; the scalar `0` placed there by pandas is modelled as the text
`"0"`. -/
def fillna0 (rs : List SRec) : List SRec :=
  rs.map (fun r => { r with Time := some (r.Time.getD ['0']) })

/-- The `dataset` value after src/main.py line 125 (sorted, NaN-filled);
the spec's SortedDataset. -/
def sortedDataset (rs : List MeasurementRecord) : List SRec :=
  fillna0 (split_and_sort_timestamp rs)

/-- The `dataset` value after the two filters of src/main.py lines
127-128: keep `Carrier <= 667`, then drop `Carrier == 0`; the spec's
FilteredDataset. -/
def filteredDataset (rs : List MeasurementRecord) : List SRec :=
  ((sortedDataset rs).filter (fun r => decide (r.Carrier ≤ 667))).filter
    (fun r => decide (r.Carrier ≠ 0))

/-- A filtered row together with the derived
`R32_R33_Diameter_AVG` column (src/main.py line 129). -/
structure ARec where
  Date : List Char
  Time : Option (List Char)
  Carrier : Int
  R20_Height_Left : ℚ
  R21_Height_Right : ℚ
  R30_Distance : ℚ
  R31_Distance : ℚ
  R32_Diameter_LEFT : ℚ
  R33_Diameter_RIGHT : ℚ
  R32_R33_Diameter_AVG : ℚ
deriving DecidableEq, Repr

/-- `dataset['R32_R33_Diameter_AVG'] = (R32_Diameter_LEFT + R33_Diameter_RIGHT)/2`
(src/main.py line 129). -/
def addDiameterAvg (r : SRec) : ARec where
  Date := r.Date
  Time := r.Time
  Carrier := r.Carrier
  R20_Height_Left := r.R20_Height_Left
  R21_Height_Right := r.R21_Height_Right
  R30_Distance := r.R30_Distance
  R31_Distance := r.R31_Distance
  R32_Diameter_LEFT := r.R32_Diameter_LEFT
  R33_Diameter_RIGHT := r.R33_Diameter_RIGHT
  R32_R33_Diameter_AVG := (r.R32_Diameter_LEFT + r.R33_Diameter_RIGHT) / 2

/-- The dataset entering the `groupby` (src/main.py line 129 applied to
the filtered dataset). -/
def withAvg (rs : List SRec) : List ARec :=
  rs.map addDiameterAvg

/-- One row of `grouped_df` (src/main.py line 138). -/
structure GroupRow where
  Carrier : Int
  R20_Height_Left : ℚ
  R21_Height_Right : ℚ
  R30_Distance : ℚ
  R31_Distance : ℚ
  R32_Diameter_LEFT : ℚ
  R33_Diameter_RIGHT : ℚ
  R32_R33_Diameter_AVG : ℚ
deriving DecidableEq, Repr

/-- Arithmetic mean of a list of rationals (pandas `mean`). -/
def meanOf (xs : List ℚ) : ℚ :=
  xs.sum / (xs.length : ℚ)

/-- The rows of a carrier group, in dataset order. -/
def groupOf (rs : List ARec) (c : Int) : List ARec :=
  rs.filter (fun r => decide (r.Carrier = c))

/-- The `grouped_df` row for one carrier: the mean of each of the seven
averaged columns over that carrier's rows (src/main.py lines 131-138). -/
def groupRow (rs : List ARec) (c : Int) : GroupRow where
  Carrier := c
  R20_Height_Left := meanOf ((groupOf rs c).map ARec.R20_Height_Left)
  R21_Height_Right := meanOf ((groupOf rs c).map ARec.R21_Height_Right)
  R30_Distance := meanOf ((groupOf rs c).map ARec.R30_Distance)
  R31_Distance := meanOf ((groupOf rs c).map ARec.R31_Distance)
  R32_Diameter_LEFT := meanOf ((groupOf rs c).map ARec.R32_Diameter_LEFT)
  R33_Diameter_RIGHT := meanOf ((groupOf rs c).map ARec.R33_Diameter_RIGHT)
  R32_R33_Diameter_AVG := meanOf ((groupOf rs c).map ARec.R32_R33_Diameter_AVG)

/-- The distinct carrier values, ascending: pandas `groupby('Carrier')`
with the default `sort=True` emits one group per distinct key in
ascending key order. -/
def groupKeys (rs : List ARec) : List Int :=
  ((rs.map ARec.Carrier).dedup).insertionSort (· ≤ ·)

/-- `grouped_df = dataset.groupby('Carrier')[columns_to_average].mean().reset_index()`
(src/main.py line 138); the spec's GroupSummary. -/
def grouped_df (rs : List ARec) : List GroupRow :=
  (groupKeys rs).map (groupRow rs)

/-- `ploter = grouped_df[~(grouped_df['R31_Distance'] > 8)]`
(src/main.py line 140); the spec's ChartView. -/
def ploter (g : List GroupRow) : List GroupRow :=
  g.filter (fun r => decide (¬ (r.R31_Distance > 8)))

/-- Modelled from the spec: "split the `timestamp` field once on the
literal `\"T\"` — left part becomes `date`, right part is further split
on `\".\"` and only the first segment becomes `time`".  The right part
of a single split at the first `'T'` is everything after that `'T'`. -/
def timeSplitOnce (ts : List Char) : Option (List Char) :=
  match splitOnChar 'T' ts with
  | [] => none
  | [_] => none
  | _ :: r1 :: rest =>
    some ((splitOnChar '.' (List.intercalate ['T'] (r1 :: rest))).getD 0 [])

/-- Characterization of a successful parse: `processLine` yields `r`
exactly when the line is not a marker line, has at least 10 fields, the
carrier and all six numeric fields parse to `r`'s values, and `r`'s
timestamp is field 1 verbatim. -/
theorem processLine_eq_some_iff (line : List Char) (r : MeasurementRecord) :
    processLine line = some r ↔
      discardLine line = false ∧
      10 ≤ (fieldsOf line).length ∧
      pyInt (carrierFieldOf line) = some r.carrier ∧
      numField ((fieldsOf line).getD 4 []) = some r.R20_Height_Left ∧
      numField ((fieldsOf line).getD 5 []) = some r.R21_Height_Right ∧
      numField ((fieldsOf line).getD 6 []) = some r.R30_Distance ∧
      numField ((fieldsOf line).getD 7 []) = some r.R31_Distance ∧
      numField ((fieldsOf line).getD 8 []) = some r.R32_Diameter_LEFT ∧
      numField ((fieldsOf line).getD 9 []) = some r.R33_Diameter_RIGHT ∧
      r.timestamp = (fieldsOf line).getD 1 [] := by
  obtain ⟨ts, c, a4, a5, a6, a7, a8, a9⟩ := r
  simp only [processLine, parseFields]
  by_cases hd : discardLine line
  · simp [hd]
  · rw [Bool.not_eq_true] at hd
    simp only [hd, Bool.false_eq_true, if_false, true_and]
    by_cases hlen : (fieldsOf line).length < 10
    · simp [hlen, Nat.not_le_of_lt hlen]
    · simp only [hlen, if_false, Nat.le_of_not_lt hlen, true_and]
      cases hc : pyInt (carrierFieldOf line) with
      | none => simp [hc]
      | some c' =>
        cases h4 : numField ((fieldsOf line).getD 4 []) with
        | none => simp [hc, h4]
        | some v4 =>
          cases h5 : numField ((fieldsOf line).getD 5 []) with
          | none => simp [hc, h4, h5]
          | some v5 =>
            cases h6 : numField ((fieldsOf line).getD 6 []) with
            | none => simp [hc, h4, h5, h6]
            | some v6 =>
              cases h7 : numField ((fieldsOf line).getD 7 []) with
              | none => simp [hc, h4, h5, h6, h7]
              | some v7 =>
                cases h8 : numField ((fieldsOf line).getD 8 []) with
                | none => simp [hc, h4, h5, h6, h7, h8]
                | some v8 =>
                  cases h9 : numField ((fieldsOf line).getD 9 []) with
                  | none => simp [hc, h4, h5, h6, h7, h8, h9]
                  | some v9 =>
                    simp only [hc, h4, h5, h6, h7, h8, h9, Option.some_bind,
                      Option.pure_def, Option.some.injEq,
                      MeasurementRecord.mk.injEq]
                    aesop

/-- C4: the Record Parser emits a record for a line exactly when the
line is not a marker line, splits into at least 10 `;`-fields, and the
carrier and all six numeric fields parse; in particular a line violating
any of these produces no record.  The left-hand side is a total
function, so no exception escapes the per-line loop. -/
theorem C4_emission_guard (line : List Char) :
    (processLine line).isSome = true ↔
      (discardLine line = false ∧
       10 ≤ (fieldsOf line).length ∧
       (pyInt (carrierFieldOf line)).isSome = true ∧
       (numField ((fieldsOf line).getD 4 [])).isSome = true ∧
       (numField ((fieldsOf line).getD 5 [])).isSome = true ∧
       (numField ((fieldsOf line).getD 6 [])).isSome = true ∧
       (numField ((fieldsOf line).getD 7 [])).isSome = true ∧
       (numField ((fieldsOf line).getD 8 [])).isSome = true ∧
       (numField ((fieldsOf line).getD 9 [])).isSome = true) := by
  constructor
  · intro h
    obtain ⟨r, hr⟩ := Option.isSome_iff_exists.mp h
    obtain ⟨hd, hlen, hc, h4, h5, h6, h7, h8, h9, -⟩ :=
      (processLine_eq_some_iff line r).mp hr
    exact ⟨hd, hlen, by rw [hc]; rfl, by rw [h4]; rfl, by rw [h5]; rfl,
      by rw [h6]; rfl, by rw [h7]; rfl, by rw [h8]; rfl, by rw [h9]; rfl⟩
  · rintro ⟨hd, hlen, hc, h4, h5, h6, h7, h8, h9⟩
    obtain ⟨c, hc'⟩ := Option.isSome_iff_exists.mp hc
    obtain ⟨v4, h4'⟩ := Option.isSome_iff_exists.mp h4
    obtain ⟨v5, h5'⟩ := Option.isSome_iff_exists.mp h5
    obtain ⟨v6, h6'⟩ := Option.isSome_iff_exists.mp h6
    obtain ⟨v7, h7'⟩ := Option.isSome_iff_exists.mp h7
    obtain ⟨v8, h8'⟩ := Option.isSome_iff_exists.mp h8
    obtain ⟨v9, h9'⟩ := Option.isSome_iff_exists.mp h9
    exact Option.isSome_iff_exists.mpr
      ⟨⟨(fieldsOf line).getD 1 [], c, v4, v5, v6, v7, v8, v9⟩,
        (processLine_eq_some_iff line _).mpr
          ⟨hd, hlen, hc', h4', h5', h6', h7', h8', h9', rfl⟩⟩

/-- C3 (counterexample): the 10-field line `";;;1;;;;;;"` yields a
record, and its timestamp — field index 1 — is the empty string, so the
parser does not guarantee a non-empty timestamp. -/
theorem C3_counterexample :
    (processLine ";;;1;;;;;;".toList).map MeasurementRecord.timestamp = some [] := by
  decide

/-- C3 (amended): every record emitted by the Record Parser carries
field index 1 verbatim as its timestamp; the parser places no
non-emptiness requirement on it. -/
theorem C3_timestamp_verbatim (line : List Char) (r : MeasurementRecord)
    (h : processLine line = some r) :
    r.timestamp = (fieldsOf line).getD 1 [] :=
  ((processLine_eq_some_iff line r).mp h).2.2.2.2.2.2.2.2.2

/-- Witness for `C3_timestamp_verbatim` at a concrete line. -/
theorem C3_timestamp_verbatim_witness :
    (⟨"ts".toList, 1, 0, 0, 0, 0, 0, 0⟩ : MeasurementRecord).timestamp =
      (fieldsOf "X;ts;Y;1;;;;;;".toList).getD 1 [] :=
  C3_timestamp_verbatim "X;ts;Y;1;;;;;;".toList
    ⟨"ts".toList, 1, 0, 0, 0, 0, 0, 0⟩ (by decide)

/-- C8: every emitted record's carrier is the integer parse of the
carrier field's text before any `.`; a carrier field `"42.000"` parses
to `42`, and `"abc"` drops the line. -/
theorem C8_carrier_truncation :
    (∀ (line : List Char) (r : MeasurementRecord), processLine line = some r →
        pyInt (carrierFieldOf line) = some r.carrier) ∧
    (processLine "X;ts;Y;42.000;1;1;1;1;1;1".toList).map MeasurementRecord.carrier =
      some 42 ∧
    processLine "X;ts;Y;abc;1;1;1;1;1;1".toList = none :=
  ⟨fun line r h => ((processLine_eq_some_iff line r).mp h).2.2.1,
    by decide, by decide⟩

/-- Witness for the universally quantified part of `C8_carrier_truncation`. -/
theorem C8_carrier_truncation_witness :
    pyInt (carrierFieldOf "X;ts;Y;42.000;1;1;1;1;1;1".toList) = some (42 : Int) :=
  C8_carrier_truncation.1 "X;ts;Y;42.000;1;1;1;1;1;1".toList
    ⟨"ts".toList, 42, 1, 1, 1, 1, 1, 1⟩ (by decide)

/-- C9: on a line that is not a marker line, has at least 10 fields, and
whose carrier and numeric fields all parse, an empty numeric field
`k ∈ {4,...,9}` yields value `0` for that channel in an emitted record —
the empty field never causes the line to be dropped. -/
theorem C9_empty_field_defaults_to_zero (line : List Char) (k : Nat)
    (hk : k ∈ ([4, 5, 6, 7, 8, 9] : List Nat))
    (hke : (fieldsOf line).getD k [] = [])
    (hd : discardLine line = false)
    (hlen : 10 ≤ (fieldsOf line).length)
    (hc : (pyInt (carrierFieldOf line)).isSome = true)
    (hnum : ∀ i ∈ ([4, 5, 6, 7, 8, 9] : List Nat),
        (numField ((fieldsOf line).getD i [])).isSome = true) :
    ∃ r, processLine line = some r ∧ chanOf r k = 0 := by
  obtain ⟨c, hc'⟩ := Option.isSome_iff_exists.mp hc
  obtain ⟨v4, h4⟩ := Option.isSome_iff_exists.mp (hnum 4 (by simp))
  obtain ⟨v5, h5⟩ := Option.isSome_iff_exists.mp (hnum 5 (by simp))
  obtain ⟨v6, h6⟩ := Option.isSome_iff_exists.mp (hnum 6 (by simp))
  obtain ⟨v7, h7⟩ := Option.isSome_iff_exists.mp (hnum 7 (by simp))
  obtain ⟨v8, h8⟩ := Option.isSome_iff_exists.mp (hnum 8 (by simp))
  obtain ⟨v9, h9⟩ := Option.isSome_iff_exists.mp (hnum 9 (by simp))
  refine ⟨⟨(fieldsOf line).getD 1 [], c, v4, v5, v6, v7, v8, v9⟩,
    (processLine_eq_some_iff line _).mpr
      ⟨hd, hlen, hc', h4, h5, h6, h7, h8, h9, rfl⟩, ?_⟩
  have hk' : k = 4 ∨ k = 5 ∨ k = 6 ∨ k = 7 ∨ k = 8 ∨ k = 9 := by simpa using hk
  have hzero : numField [] = some 0 := rfl
  rcases hk' with rfl | rfl | rfl | rfl | rfl | rfl
  · rw [hke, hzero] at h4
    simpa [chanOf] using (Option.some.injEq _ _ ▸ h4).symm
  · rw [hke, hzero] at h5
    simpa [chanOf] using (Option.some.injEq _ _ ▸ h5).symm
  · rw [hke, hzero] at h6
    simpa [chanOf] using (Option.some.injEq _ _ ▸ h6).symm
  · rw [hke, hzero] at h7
    simpa [chanOf] using (Option.some.injEq _ _ ▸ h7).symm
  · rw [hke, hzero] at h8
    simpa [chanOf] using (Option.some.injEq _ _ ▸ h8).symm
  · rw [hke, hzero] at h9
    simpa [chanOf] using (Option.some.injEq _ _ ▸ h9).symm

/-- Witness for `C9_empty_field_defaults_to_zero` at a concrete line
with field 5 empty. -/
theorem C9_empty_field_defaults_to_zero_witness :
    ∃ r, processLine "X;ts;Y;1;2;;3;4;5;6".toList = some r ∧ chanOf r 5 = 0 :=
  C9_empty_field_defaults_to_zero "X;ts;Y;1;2;;3;4;5;6".toList 5
    (by decide) (by decide) (by decide) (by decide) (by decide) (by decide)

/-- C10: on non-marker lines with at least 10 fields, the parser's
output depends only on the fields at indices 1, 3 and 4-9: two such
lines agreeing there are either both dropped or yield identical
records. -/
theorem C10_field_noninterference (l1 l2 : List Char)
    (hd1 : discardLine l1 = false) (hd2 : discardLine l2 = false)
    (hlen1 : 10 ≤ (fieldsOf l1).length) (hlen2 : 10 ≤ (fieldsOf l2).length)
    (hagree : ∀ i ∈ ([1, 3, 4, 5, 6, 7, 8, 9] : List Nat),
        (fieldsOf l1).getD i [] = (fieldsOf l2).getD i []) :
    processLine l1 = processLine l2 := by
  have e1 := hagree 1 (by simp)
  have e3 := hagree 3 (by simp)
  have e4 := hagree 4 (by simp)
  have e5 := hagree 5 (by simp)
  have e6 := hagree 6 (by simp)
  have e7 := hagree 7 (by simp)
  have e8 := hagree 8 (by simp)
  have e9 := hagree 9 (by simp)
  have g1 : processLine l1 = parseFields l1 := by
    simp [processLine, hd1, Nat.not_lt.mpr hlen1]
  have g2 : processLine l2 = parseFields l2 := by
    simp [processLine, hd2, Nat.not_lt.mpr hlen2]
  rw [g1, g2]
  unfold parseFields carrierFieldOf
  rw [e1, e3, e4, e5, e6, e7, e8, e9]

/-- Witness for `C10_field_noninterference`: two lines differing at
field indices 0 and 2 and in an extra trailing field parse identically. -/
theorem C10_field_noninterference_witness :
    processLine "A;ts;B;5;1;2;3;4;5;6".toList =
      processLine "Z;ts;Q;5;1;2;3;4;5;6;EXTRA".toList :=
  C10_field_noninterference "A;ts;B;5;1;2;3;4;5;6".toList
    "Z;ts;Q;5;1;2;3;4;5;6;EXTRA".toList
    (by decide) (by decide) (by decide) (by decide) (by decide)

theorem lexLe_refl (s : List Char) : lexLe s s = true := by
  induction s with
  | nil => rfl
  | cons c cs ih => simp [lexLe, ih]

/-- C5: the `(Date, Time)` sort of the Timestamp Normalizer is stable —
two records with identical keys keep, in the SortedDataset, the relative
order they had in the parser's output. -/
theorem C5_sort_stability (rs : List MeasurementRecord) (a b : SRec)
    (hdate : a.Date = b.Date) (htime : a.Time = b.Time)
    (hsub : [a, b].Sublist (rs.map toSRec)) :
    [a, b].Sublist (split_and_sort_timestamp rs) := by
  apply List.pair_sublist_insertionSort ?_ hsub
  show keyLE a b = true
  unfold keyLE
  rw [if_pos hdate, htime]
  cases b.Time with
  | none => rfl
  | some t => simpa [timeLE] using lexLe_refl t

/-- Witness for `C5_sort_stability`: two distinct records sharing the
key `("d", "t")`. -/
theorem C5_sort_stability_witness :
    [toSRec ⟨"dTt.1".toList, 1, 0, 0, 0, 0, 0, 0⟩,
     toSRec ⟨"dTt.2".toList, 2, 0, 0, 0, 0, 0, 0⟩].Sublist
      (split_and_sort_timestamp
        [⟨"dTt.1".toList, 1, 0, 0, 0, 0, 0, 0⟩,
         ⟨"dTt.2".toList, 2, 0, 0, 0, 0, 0, 0⟩]) :=
  C5_sort_stability _ _ _ (by decide) (by decide) (by decide)

/-- C6 (counterexample): on the timestamp `"aTbTc.d"` the code's `Time`
is `"b"` (pandas `split` splits at every `'T'` and `.str[1]` takes the
second segment), while splitting once on `'T'` would give `"bTc"`. -/
theorem C6_counterexample :
    (toSRec ⟨"aTbTc.d".toList, 1, 0, 0, 0, 0, 0, 0⟩).Time = some ['b'] ∧
    timeSplitOnce "aTbTc.d".toList = some "bTc".toList ∧
    (['b'] : List Char) ≠ "bTc".toList := by
  decide

/-- C6 (amended): the Normalizer splits the timestamp at every `'T'`:
`Date` is segment 0 and `Time` is the first `'.'`-separated piece of
segment 1 (the combined field no longer exists on `SRec`); this agrees
with the spec's split-once reading whenever the timestamp contains at
most one `'T'`. -/
theorem C6_timestamp_split (r : MeasurementRecord) :
    (toSRec r).Date = (splitOnChar 'T' r.timestamp).getD 0 [] ∧
    (toSRec r).Time =
      ((splitOnChar 'T' r.timestamp)[1]?).map
        (fun t => (splitOnChar '.' t).getD 0 []) ∧
    ((splitOnChar 'T' r.timestamp).length ≤ 2 →
      (toSRec r).Time = timeSplitOnce r.timestamp) := by
  refine ⟨rfl, rfl, fun hlen => ?_⟩
  cases h : splitOnChar 'T' r.timestamp with
  | nil => simp [toSRec, timeSplitOnce, h]
  | cons x xs =>
    cases xs with
    | nil => simp [toSRec, timeSplitOnce, h]
    | cons y ys =>
      cases ys with
      | nil =>
        simp [toSRec, timeSplitOnce, h, List.intercalate, List.intersperse]
      | cons z zs =>
        rw [h] at hlen
        simp at hlen

/-- Witness for `C6_timestamp_split` on a well-formed timestamp. -/
theorem C6_timestamp_split_witness :
    (toSRec ⟨"2024-01-01T10:00:00.000".toList, 1, 0, 0, 0, 0, 0, 0⟩).Time =
      timeSplitOnce "2024-01-01T10:00:00.000".toList :=
  (C6_timestamp_split _).2.2 (by decide)

/-- C2 (counterexample): the parsed line with carrier field `"-1"` gives
a record with carrier `-1`, which the filters of src/main.py lines
127-128 retain even though `-1` lies outside the interval `(0, 667]`. -/
theorem C2_counterexample :
    (filteredDataset
        (process_measurements "A;dTt.0;B;-1;1;1;1;1;1;1".toList)).map
      SRec.Carrier = [-1] ∧ ¬ (0 < (-1 : Int)) := by
  decide

/-- C2 (amended): a SortedDataset record is kept in FilteredDataset
exactly when `carrier ≤ 667` and `carrier ≠ 0`.  For non-negative
carriers this coincides with `0 < carrier ≤ 667`, but negative carriers
are retained. -/
theorem C2_filter_bounds (rs : List MeasurementRecord) (r : SRec) :
    r ∈ filteredDataset rs ↔
      r ∈ sortedDataset rs ∧ r.Carrier ≤ 667 ∧ r.Carrier ≠ 0 := by
  simp only [filteredDataset, List.mem_filter, decide_eq_true_eq, and_assoc]

/-- C1 (counterexample): a group row whose `R30_Distance` mean is `9`
(strictly above 8) stays in `ploter` because the filter of src/main.py
line 140 tests `R31_Distance`, which is `0` here. -/
theorem C1_counterexample :
    (grouped_df (withAvg (filteredDataset
        (process_measurements "A;dTt.0;B;1;0;0;9;0;0;0".toList)))).map
      GroupRow.R30_Distance = [9] ∧
    ploter (grouped_df (withAvg (filteredDataset
        (process_measurements "A;dTt.0;B;1;0;0;9;0;0;0".toList)))) =
      grouped_df (withAvg (filteredDataset
        (process_measurements "A;dTt.0;B;1;0;0;9;0;0;0".toList))) ∧
    (9 : ℚ) > 8 := by
  decide

/-- C1 (amended): ChartView (`ploter`) is GroupSummary with every row
whose mean `R31_Distance` (the `distance_alt` channel) strictly exceeds
8 removed; the boundary is exclusive, so a row with mean
`R31_Distance = 8` is present in both. -/
theorem C1_chartview_filter (g : List GroupRow) (row : GroupRow) :
    (row ∈ ploter g ↔ row ∈ g ∧ ¬ (row.R31_Distance > 8)) ∧
    (row.R31_Distance = 8 → (row ∈ ploter g ↔ row ∈ g)) := by
  constructor
  · simp [ploter, List.mem_filter]
  · intro h8
    simp [ploter, List.mem_filter, h8]

/-- Witness for the boundary part of `C1_chartview_filter`. -/
theorem C1_chartview_filter_witness :
    (⟨1, 0, 0, 0, 8, 0, 0, 0⟩ : GroupRow) ∈
        ploter [(⟨1, 0, 0, 0, 8, 0, 0, 0⟩ : GroupRow)] ↔
      (⟨1, 0, 0, 0, 8, 0, 0, 0⟩ : GroupRow) ∈
        [(⟨1, 0, 0, 0, 8, 0, 0, 0⟩ : GroupRow)] :=
  (C1_chartview_filter [⟨1, 0, 0, 0, 8, 0, 0, 0⟩] ⟨1, 0, 0, 0, 8, 0, 0, 0⟩).2 rfl

theorem groupKeys_sorted (rs : List ARec) :
    List.Pairwise (· < ·) (groupKeys rs) := by
  have hs : List.Pairwise (· ≤ ·) (groupKeys rs) :=
    List.sorted_insertionSort (· ≤ ·) ((rs.map ARec.Carrier).dedup)
  have hn : (groupKeys rs).Nodup :=
    ((List.perm_insertionSort (· ≤ ·) _).nodup_iff).mpr
      (List.nodup_dedup _)
  exact (hs.and hn).imp fun h => lt_of_le_of_ne h.1 h.2

theorem mem_groupKeys (rs : List ARec) (c : Int) :
    c ∈ groupKeys rs ↔ c ∈ rs.map ARec.Carrier := by
  unfold groupKeys
  rw [List.mem_insertionSort, List.mem_dedup]

theorem grouped_carriers (rs : List ARec) :
    (grouped_df rs).map GroupRow.Carrier = groupKeys rs := by
  unfold grouped_df
  rw [List.map_map]
  have h : (GroupRow.Carrier ∘ groupRow rs) = id := rfl
  rw [h, List.map_id]

theorem withAvg_carriers (s : List SRec) :
    (withAvg s).map ARec.Carrier = s.map SRec.Carrier := by
  unfold withAvg
  rw [List.map_map]
  rfl

theorem meanOf_singleton (x : ℚ) : meanOf [x] = x := by
  simp [meanOf]

/-- C7: GroupSummary has strictly ascending carriers (hence exactly one
row per carrier), its carriers are exactly those present in
FilteredDataset, each row holds the arithmetic mean of each of the seven
numeric columns over that carrier's rows, and a singleton group yields
that row's own values. -/
theorem C7_group_summary (rs : List MeasurementRecord) :
    List.Pairwise (· < ·)
      ((grouped_df (withAvg (filteredDataset rs))).map GroupRow.Carrier) ∧
    (∀ c : Int,
      c ∈ (grouped_df (withAvg (filteredDataset rs))).map GroupRow.Carrier ↔
        c ∈ (filteredDataset rs).map SRec.Carrier) ∧
    (∀ g ∈ grouped_df (withAvg (filteredDataset rs)),
      g.R20_Height_Left =
        meanOf ((groupOf (withAvg (filteredDataset rs)) g.Carrier).map
          ARec.R20_Height_Left) ∧
      g.R21_Height_Right =
        meanOf ((groupOf (withAvg (filteredDataset rs)) g.Carrier).map
          ARec.R21_Height_Right) ∧
      g.R30_Distance =
        meanOf ((groupOf (withAvg (filteredDataset rs)) g.Carrier).map
          ARec.R30_Distance) ∧
      g.R31_Distance =
        meanOf ((groupOf (withAvg (filteredDataset rs)) g.Carrier).map
          ARec.R31_Distance) ∧
      g.R32_Diameter_LEFT =
        meanOf ((groupOf (withAvg (filteredDataset rs)) g.Carrier).map
          ARec.R32_Diameter_LEFT) ∧
      g.R33_Diameter_RIGHT =
        meanOf ((groupOf (withAvg (filteredDataset rs)) g.Carrier).map
          ARec.R33_Diameter_RIGHT) ∧
      g.R32_R33_Diameter_AVG =
        meanOf ((groupOf (withAvg (filteredDataset rs)) g.Carrier).map
          ARec.R32_R33_Diameter_AVG)) ∧
    (∀ g ∈ grouped_df (withAvg (filteredDataset rs)),
      ∀ r ∈ withAvg (filteredDataset rs),
        groupOf (withAvg (filteredDataset rs)) r.Carrier = [r] →
        g.Carrier = r.Carrier →
        g = ⟨r.Carrier, r.R20_Height_Left, r.R21_Height_Right,
          r.R30_Distance, r.R31_Distance, r.R32_Diameter_LEFT,
          r.R33_Diameter_RIGHT, r.R32_R33_Diameter_AVG⟩) := by
  refine ⟨?_, ?_, ?_, ?_⟩
  · rw [grouped_carriers]
    exact groupKeys_sorted _
  · intro c
    rw [grouped_carriers, mem_groupKeys, withAvg_carriers]
  · intro g hg
    obtain ⟨c, -, rfl⟩ := List.mem_map.mp hg
    exact ⟨rfl, rfl, rfl, rfl, rfl, rfl, rfl⟩
  · intro g hg r hr hsingle hcar
    obtain ⟨c, -, rfl⟩ := List.mem_map.mp hg
    have hc : c = r.Carrier := hcar
    subst hc
    simp [groupRow, hsingle, meanOf_singleton]

/-- Witness for the mean part of `C7_group_summary` at a one-line input. -/
theorem C7_group_summary_witness :
    (⟨3, 1, 2, 3, 4, 5, 6, mkRat 11 2⟩ : GroupRow).R20_Height_Left =
      meanOf ((groupOf (withAvg (filteredDataset
          (process_measurements "A;dTt.0;B;3;1;2;3;4;5;6".toList)))
        (⟨3, 1, 2, 3, 4, 5, 6, mkRat 11 2⟩ : GroupRow).Carrier).map
        ARec.R20_Height_Left) ∧
    (⟨3, 1, 2, 3, 4, 5, 6, mkRat 11 2⟩ : GroupRow).R21_Height_Right =
      meanOf ((groupOf (withAvg (filteredDataset
          (process_measurements "A;dTt.0;B;3;1;2;3;4;5;6".toList)))
        (⟨3, 1, 2, 3, 4, 5, 6, mkRat 11 2⟩ : GroupRow).Carrier).map
        ARec.R21_Height_Right) ∧
    (⟨3, 1, 2, 3, 4, 5, 6, mkRat 11 2⟩ : GroupRow).R30_Distance =
      meanOf ((groupOf (withAvg (filteredDataset
          (process_measurements "A;dTt.0;B;3;1;2;3;4;5;6".toList)))
        (⟨3, 1, 2, 3, 4, 5, 6, mkRat 11 2⟩ : GroupRow).Carrier).map
        ARec.R30_Distance) ∧
    (⟨3, 1, 2, 3, 4, 5, 6, mkRat 11 2⟩ : GroupRow).R31_Distance =
      meanOf ((groupOf (withAvg (filteredDataset
          (process_measurements "A;dTt.0;B;3;1;2;3;4;5;6".toList)))
        (⟨3, 1, 2, 3, 4, 5, 6, mkRat 11 2⟩ : GroupRow).Carrier).map
        ARec.R31_Distance) ∧
    (⟨3, 1, 2, 3, 4, 5, 6, mkRat 11 2⟩ : GroupRow).R32_Diameter_LEFT =
      meanOf ((groupOf (withAvg (filteredDataset
          (process_measurements "A;dTt.0;B;3;1;2;3;4;5;6".toList)))
        (⟨3, 1, 2, 3, 4, 5, 6, mkRat 11 2⟩ : GroupRow).Carrier).map
        ARec.R32_Diameter_LEFT) ∧
    (⟨3, 1, 2, 3, 4, 5, 6, mkRat 11 2⟩ : GroupRow).R33_Diameter_RIGHT =
      meanOf ((groupOf (withAvg (filteredDataset
          (process_measurements "A;dTt.0;B;3;1;2;3;4;5;6".toList)))
        (⟨3, 1, 2, 3, 4, 5, 6, mkRat 11 2⟩ : GroupRow).Carrier).map
        ARec.R33_Diameter_RIGHT) ∧
    (⟨3, 1, 2, 3, 4, 5, 6, mkRat 11 2⟩ : GroupRow).R32_R33_Diameter_AVG =
      meanOf ((groupOf (withAvg (filteredDataset
          (process_measurements "A;dTt.0;B;3;1;2;3;4;5;6".toList)))
        (⟨3, 1, 2, 3, 4, 5, 6, mkRat 11 2⟩ : GroupRow).Carrier).map
        ARec.R32_R33_Diameter_AVG) :=
  (C7_group_summary
    (process_measurements "A;dTt.0;B;3;1;2;3;4;5;6".toList)).2.2.1
    ⟨3, 1, 2, 3, 4, 5, 6, mkRat 11 2⟩ (by decide)
